import Mathlib

/-!
Verification of the zenmap GUI widgets `ProfileCombo`
(src/zenmap/zenmapGUI/ProfileCombo.py) and `HIGFrame`
(src/zenmap/zenmapGUI/higwidgets/higframe.py), as a shallow embedding.

A `ProfileCombo` is a GTK combo box with an entry child: its observable
state is the row list of its `Gtk.ListStore(str)` model (one profile name
per row) and the free text of the entry.  `HIGFrame` is a GTK frame whose
label widget carries bold Pango markup.  The configuration collaborator
`CommandProfile` (from zenmapCore.UmitConf, whose source is not included)
is modelled from the spec as an opaque store exposing `sections()`.
-/

namespace Zenmap

/-- Observable state of a `ProfileCombo` widget: the rows of its
`Gtk.ListStore(str)` model and the text of its entry child. -/
structure ProfileCombo where
  model : List String
  entryText : String
deriving Repr, DecidableEq

/-- The clearing loop of `set_profiles`:
`for i in range(len(list)): iter = list.get_iter_first(); del(list[iter])`.
It runs exactly `n` iterations; each iteration asks for the first
iterator, which is invalid (`none`) on an empty model - making the
deletion fail - and deletes the first row otherwise. -/
def deleteFirstN : Nat → List String → Option (List String)
  | 0, l => some l
  | _ + 1, [] => none
  | n + 1, _ :: t => deleteFirstN n t

/-- `ProfileCombo.set_profiles`: clear the model by deleting the first row
`len(list)` times, then append each input profile in order
(`for command in profiles: list.append([command])`). -/
def set_profiles (s : ProfileCombo) (profiles : List String) :
    Option ProfileCombo :=
  match deleteFirstN s.model.length s.model with
  | none => none
  | some cleared => some { s with model := cleared ++ profiles }

/-- Python string comparison on code points: `a < b`, `a == b` and
`a > b` on the leading characters decide, ties recurse; a list is `<=`
any extension of itself. -/
def listLe : List Char → List Char → Bool
  | [], _ => true
  | _ :: _, [] => false
  | a :: as, b :: bs =>
    if a < b then true else if b < a then false else listLe as bs

/-- Lexicographic `<=` on strings, as Python compares `str` values. -/
def strLe (a b : String) : Bool :=
  listLe a.data b.data

/-- Insert a string into an already sorted list, keeping it sorted. -/
def insort (x : String) : List String → List String
  | [] => [x]
  | y :: ys => if strLe x y = true then x :: y :: ys else y :: insort x ys

/-- `profiles.sort()` of Python: sort ascending by `strLe`. -/
def sortList : List String → List String
  | [] => []
  | x :: xs => insort x (sortList xs)

/-- Modelled from the spec: the configuration collaborator `CommandProfile`
(zenmapCore.UmitConf, not among the provided sources) exposes
`sections() -> sequence of string`, the names of all defined scan
profiles; it is treated as opaque and is only ever read here. -/
structure CommandProfile where
  sections : List String
deriving Repr, DecidableEq

/-- The state `update` acts on: the widget plus the backing configuration
store that a freshly constructed `CommandProfile` reads from. -/
structure GUIState where
  combo : ProfileCombo
  config : CommandProfile
deriving Repr, DecidableEq

/-- `ProfileCombo.update`: read the section names from a fresh
`CommandProfile`, sort them ascending in place (`profiles.sort()`), and
hand the sorted list to `set_profiles`.  The collaborator is only read,
never written. -/
def update (st : GUIState) : Option GUIState :=
  match set_profiles st.combo (sortList st.config.sections) with
  | none => none
  | some c => some { st with combo := c }

/-- `ProfileCombo.get_selected_profile`: `self.get_child().get_text()`. -/
def get_selected_profile (s : ProfileCombo) : String :=
  s.entryText

/-- `ProfileCombo.set_selected_profile`:
`self.get_child().set_text(profile)`. -/
def set_selected_profile (s : ProfileCombo) (profile : String) :
    ProfileCombo :=
  { s with entryText := profile }

/-- A GTK label widget, observed through the Pango markup set on it. -/
structure GtkLabel where
  markup : String
deriving Repr, DecidableEq

/-- The frame shadow styles this code touches: `Gtk.Frame` starts with
`ETCHED_IN` and `HIGFrame.__init__` switches to `NONE`. -/
inductive ShadowType
  | NONE
  | ETCHED_IN
deriving Repr, DecidableEq

/-- Observable state of a `HIGFrame`: its shadow type and the label
widget installed by `set_label_widget`. -/
structure HIGFrame where
  shadow_type : ShadowType
  flabel : GtkLabel
deriving Repr, DecidableEq

/-- Python `"%s" % x` conversion of the label argument: a string formats
as itself and `None` formats as the text `"None"`. -/
def pyStr : Option String → String
  | none => "None"
  | some s => s

/-- `HIGFrame._set_label`:
`self._flabel.set_markup("<b>%s</b>" % label)`. -/
def HIGFrame.set_label (f : HIGFrame) (label : Option String) : HIGFrame :=
  { f with flabel := { markup := "<b>" ++ pyStr label ++ "</b>" } }

/-- `HIGFrame.__init__(label=None)`: frame construction, then
`set_shadow_type(NONE)`, a fresh empty label, `_set_label(label)` and
`set_label_widget`. -/
def HIGFrame.init (label : Option String := none) : HIGFrame :=
  HIGFrame.set_label { shadow_type := ShadowType.NONE, flabel := ⟨""⟩ } label

/-- Strip a trailing `</b>` tag from a character list. -/
def stripBoldSuffix (cs : List Char) : Option (List Char) :=
  match cs.reverse with
  | '>' :: 'b' :: '/' :: '<' :: r => some r.reverse
  | _ => none

/-- Modelled from the spec: the toolkit renders Pango markup of the exact
form `<b>t</b>` as the caption text `t` with bold emphasis applied. -/
def renderedBoldCaption (m : String) : Option String :=
  match m.data with
  | '<' :: 'b' :: '>' :: rest => (stripBoldSuffix rest).map String.mk
  | _ => none

/- ## Helper lemmas -/

theorem deleteFirstN_len : ∀ l : List String, deleteFirstN l.length l = some []
  | [] => rfl
  | _ :: t => deleteFirstN_len t

theorem set_profiles_eq (s : ProfileCombo) (p : List String) :
    set_profiles s p = some ⟨p, s.entryText⟩ := by
  simp [set_profiles, deleteFirstN_len]

theorem update_eq (st : GUIState) :
    update st =
      some ⟨⟨sortList st.config.sections, st.combo.entryText⟩, st.config⟩ := by
  simp [update, set_profiles_eq]

theorem listLe_total : ∀ as bs : List Char,
    listLe as bs = true ∨ listLe bs as = true
  | [], _ => Or.inl rfl
  | _ :: _, [] => Or.inr rfl
  | a :: as, b :: bs => by
    rcases lt_trichotomy a b with h | h | h
    · left
      simp [listLe, h]
    · subst h
      rcases listLe_total as bs with ih | ih
      · left
        simp [listLe, lt_irrefl, ih]
      · right
        simp [listLe, lt_irrefl, ih]
    · right
      simp [listLe, h]

theorem listLe_cons {a b : Char} {as bs : List Char}
    (h : listLe (a :: as) (b :: bs) = true) :
    a < b ∨ (a = b ∧ listLe as bs = true) := by
  unfold listLe at h
  rcases lt_trichotomy a b with hab | hab | hab
  · exact Or.inl hab
  · rw [if_neg (by rw [hab]; exact lt_irrefl b),
      if_neg (by rw [hab]; exact lt_irrefl b)] at h
    exact Or.inr ⟨hab, h⟩
  · rw [if_neg (asymm hab), if_pos hab] at h
    simp at h

theorem listLe_of_lt {a c : Char} (as cs : List Char) (h : a < c) :
    listLe (a :: as) (c :: cs) = true := by
  unfold listLe
  rw [if_pos h]

theorem listLe_of_eq {a c : Char} {as cs : List Char} (hac : a = c)
    (h : listLe as cs = true) : listLe (a :: as) (c :: cs) = true := by
  unfold listLe
  rw [if_neg (by rw [hac]; exact lt_irrefl c),
    if_neg (by rw [hac]; exact lt_irrefl c)]
  exact h

theorem listLe_trans : ∀ as bs cs : List Char,
    listLe as bs = true → listLe bs cs = true → listLe as cs = true
  | [], _, _, _, _ => rfl
  | _ :: _, [], _, h, _ => by simp [listLe] at h
  | _ :: _, _ :: _, [], _, h => by simp [listLe] at h
  | a :: as, b :: bs, c :: cs, h1, h2 => by
    rcases listLe_cons h1 with hab | ⟨hab, h1t⟩ <;>
      rcases listLe_cons h2 with hbc | ⟨hbc, h2t⟩
    · exact listLe_of_lt as cs (hab.trans hbc)
    · exact listLe_of_lt as cs (hbc ▸ hab)
    · exact listLe_of_lt as cs (by rw [hab]; exact hbc)
    · exact listLe_of_eq (hab.trans hbc) (listLe_trans as bs cs h1t h2t)

theorem strLe_total (a b : String) : strLe a b = true ∨ strLe b a = true :=
  listLe_total a.data b.data

theorem strLe_trans {a b c : String} (h1 : strLe a b = true)
    (h2 : strLe b c = true) : strLe a c = true :=
  listLe_trans a.data b.data c.data h1 h2

theorem insort_perm (x : String) :
    ∀ l : List String, (insort x l).Perm (x :: l)
  | [] => List.Perm.refl _
  | y :: ys => by
    unfold insort
    by_cases h : strLe x y = true
    · rw [if_pos h]
    · rw [if_neg h]
      exact ((insort_perm x ys).cons y).trans (List.Perm.swap x y ys)

theorem sortList_perm : ∀ l : List String, (sortList l).Perm l
  | [] => List.Perm.refl _
  | x :: xs => (insort_perm x (sortList xs)).trans ((sortList_perm xs).cons x)

theorem insort_pairwise (x : String) :
    ∀ l : List String, l.Pairwise (fun a b => strLe a b = true) →
      (insort x l).Pairwise (fun a b => strLe a b = true)
  | [], _ => by simp [insort]
  | y :: ys, h => by
    rw [List.pairwise_cons] at h
    obtain ⟨hy, hys⟩ := h
    unfold insort
    by_cases hxy : strLe x y = true
    · rw [if_pos hxy]
      refine List.pairwise_cons.mpr ⟨?_, List.pairwise_cons.mpr ⟨hy, hys⟩⟩
      intro b hb
      rcases List.mem_cons.mp hb with rfl | hb
      · exact hxy
      · exact strLe_trans hxy (hy b hb)
    · rw [if_neg hxy]
      refine List.pairwise_cons.mpr ⟨?_, insort_pairwise x ys hys⟩
      intro b hb
      have hb' : b ∈ x :: ys := (insort_perm x ys).mem_iff.mp hb
      rcases List.mem_cons.mp hb' with rfl | hb'
      · rcases strLe_total b y with h | h
        · exact absurd h hxy
        · exact h
      · exact hy b hb'

theorem sortList_pairwise :
    ∀ l : List String, (sortList l).Pairwise (fun a b => strLe a b = true)
  | [] => List.Pairwise.nil
  | x :: xs => insort_pairwise x (sortList xs) (sortList_pairwise xs)

theorem stripBoldSuffix_append (data : List Char) :
    stripBoldSuffix (data ++ ['<', '/', 'b', '>']) = some data := by
  have h : (data ++ ['<', '/', 'b', '>']).reverse =
      '>' :: 'b' :: '/' :: '<' :: data.reverse := by
    simp
  unfold stripBoldSuffix
  rw [h]
  show some data.reverse.reverse = some data
  simp

theorem renderedBoldCaption_bold (s : String) :
    renderedBoldCaption ("<b>" ++ s ++ "</b>") = some s := by
  obtain ⟨data⟩ := s
  have h : ("<b>" ++ String.mk data ++ "</b>").data =
      '<' :: 'b' :: '>' :: (data ++ ['<', '/', 'b', '>']) := by
    rw [String.data_append, String.data_append]
    rfl
  unfold renderedBoldCaption
  rw [h]
  show (stripBoldSuffix (data ++ ['<', '/', 'b', '>'])).map String.mk =
    some (String.mk data)
  rw [stripBoldSuffix_append]
  rfl

/- ## Claims -/

/-- C1: for every input sequence and every prior state, `set_profiles`
first removes all prior rows (the clearing loop succeeds and empties the
model) and then leaves the displayed list equal to the input sequence,
element for element and in order, duplicates kept verbatim. -/
theorem set_profiles_replaces_verbatim (s : ProfileCombo)
    (profiles : List String) :
    deleteFirstN s.model.length s.model = some [] ∧
      set_profiles s profiles = some ⟨profiles, s.entryText⟩ :=
  ⟨deleteFirstN_len s.model, set_profiles_eq s profiles⟩

/-- C2: after `update`, the displayed list equals the collaborator's
section list sorted lexicographically ascending (a sorted permutation of
it); in particular sections `["Intense Scan", "Quick Scan", "Ping Scan"]`
display as `["Intense Scan", "Ping Scan", "Quick Scan"]`. -/
theorem update_displays_sorted_sections :
    (∀ st : GUIState,
      update st =
          some ⟨⟨sortList st.config.sections, st.combo.entryText⟩,
            st.config⟩ ∧
        (sortList st.config.sections).Pairwise
          (fun a b => strLe a b = true) ∧
        (sortList st.config.sections).Perm st.config.sections) ∧
      update ⟨⟨[], ""⟩, ⟨["Intense Scan", "Quick Scan", "Ping Scan"]⟩⟩ =
        some ⟨⟨["Intense Scan", "Ping Scan", "Quick Scan"], ""⟩,
          ⟨["Intense Scan", "Quick Scan", "Ping Scan"]⟩⟩ :=
  ⟨fun st => ⟨update_eq st, sortList_pairwise st.config.sections,
      sortList_perm st.config.sections⟩,
    by decide⟩

/-- C3: for every string `x`, `set_selected_profile x` followed by
`get_selected_profile` returns exactly `x`. -/
theorem selected_profile_roundtrip (s : ProfileCombo) (x : String) :
    get_selected_profile (set_selected_profile s x) = x :=
  rfl

/-- C4: `set_profiles []` empties the displayed list and leaves the
selected text unchanged from its value before the call. -/
theorem set_profiles_empty_keeps_selected (s : ProfileCombo) :
    ∃ s' : ProfileCombo, set_profiles s [] = some s' ∧ s'.model = [] ∧
      get_selected_profile s' = get_selected_profile s :=
  ⟨⟨[], s.entryText⟩, set_profiles_eq s [], rfl, rfl⟩

/-- C5: for every label string `s`, constructing a `HIGFrame` with label
`s`, and likewise re-labelling via `_set_label`, yields a label whose
bold-rendered text content equals `s` exactly, and the call changes no
other widget state (the shadow type is untouched); in particular label
`"A"` renders as emphasized text `"A"`. -/
theorem hig_frame_label_bold :
    (∀ (f : HIGFrame) (s : String),
      (f.set_label (some s)).flabel.markup = "<b>" ++ s ++ "</b>" ∧
        renderedBoldCaption (f.set_label (some s)).flabel.markup = some s ∧
        (f.set_label (some s)).shadow_type = f.shadow_type) ∧
      (∀ s : String,
        renderedBoldCaption (HIGFrame.init (some s)).flabel.markup =
          some s) ∧
      renderedBoldCaption (HIGFrame.init (some "A")).flabel.markup =
        some "A" :=
  ⟨fun _ s => ⟨rfl, renderedBoldCaption_bold s, rfl⟩,
    fun s => renderedBoldCaption_bold s,
    renderedBoldCaption_bold "A"⟩

/-- C6: `update` mutates only the displayed list: the backing
configuration store and the selected text are unchanged by the call. -/
theorem update_reads_config_only (st : GUIState) :
    ∃ st' : GUIState, update st = some st' ∧ st'.config = st.config ∧
      get_selected_profile st'.combo = get_selected_profile st.combo :=
  ⟨_, update_eq st, rfl, rfl⟩

/-- C7: when the collaborator's section list is empty, `update` succeeds
and yields an empty displayed list - no error is signalled. -/
theorem update_empty_sections (st : GUIState)
    (h : st.config.sections = []) :
    update st = some ⟨⟨[], st.combo.entryText⟩, st.config⟩ := by
  rw [update_eq st, h]
  rfl

/-- Witness for C7: a concrete state whose configuration has no sections;
`update` succeeds with an empty displayed list. -/
theorem update_empty_sections_witness :
    update ⟨⟨["old"], "txt"⟩, ⟨[]⟩⟩ = some ⟨⟨[], "txt"⟩, ⟨[]⟩⟩ :=
  update_empty_sections ⟨⟨["old"], "txt"⟩, ⟨[]⟩⟩ rfl

/-- C8: the clearing loop of `set_profiles` runs `len(list)` iterations,
the first-iterator lookup succeeds at every iteration (the loop never
hits the empty-model failure case), and afterwards the model holds none
of the prior rows, for every prior length. -/
theorem clear_loop_safe_and_complete (l : List String) :
    deleteFirstN l.length l = some [] :=
  deleteFirstN_len l

/-- Counterexample for C9: constructing `HIGFrame` with `label = None`
renders the caption `"None"`, but that text has four characters, not
three as the claim states. -/
theorem hig_frame_none_three_chars_false :
    renderedBoldCaption (HIGFrame.init none).flabel.markup = some "None" ∧
      ¬ ("None".length = 3) := by
  constructor
  · exact renderedBoldCaption_bold "None"
  · decide

/-- C9 (amended): constructing `HIGFrame` with no label argument does not
leave the caption empty: the markup string-formats `None`, so the
rendered caption is the four-character text `"None"` in bold. -/
theorem hig_frame_none_caption :
    (HIGFrame.init none).flabel.markup = "<b>None</b>" ∧
      renderedBoldCaption (HIGFrame.init none).flabel.markup =
        some "None" ∧
      "None".length = 4 :=
  ⟨by decide, renderedBoldCaption_bold "None", by decide⟩

/-- C10: `set_profiles` is history-insensitive and idempotent: any two
prior states yield the same displayed list, equal to the input, and
running it twice with the same input leaves the same displayed list as
running it once. -/
theorem set_profiles_history_insensitive (s₁ s₂ : ProfileCombo)
    (p : List String) :
    ((set_profiles s₁ p).map ProfileCombo.model = some p ∧
      (set_profiles s₂ p).map ProfileCombo.model = some p) ∧
      ((set_profiles s₁ p).bind (fun s' => set_profiles s' p)).map
          ProfileCombo.model =
        (set_profiles s₁ p).map ProfileCombo.model := by
  simp [set_profiles_eq]

end Zenmap
